import Mathlib

/-!
Verification of the wind-turbine data-acquisition firmware
(`firmware/examples/08_complete_integration/08_complete_integration.ino`,
`firmware/examples/MQTT_Transmission_ESP32_nicer.ino` and the matching
MQTT handler source).  Floating-point arithmetic of the firmware is
embedded over the rationals; external library routines (square root,
the MQTT/SD drivers, the ADC) are passed in as explicit parameters or
boolean outcomes.
-/

namespace WindDAQ

/-- Rotor radius in metres, constant `ROTOR_RADIUS_M` of the firmware. -/
def ROTOR_RADIUS_M : ℚ := 0.60

/-- Swept area in square metres, constant `SWEPT_AREA_M2` of the firmware. -/
def SWEPT_AREA_M2 : ℚ := 1.80

/-- Anemometer voltage at 0 m/s, constant `ANEM_OFFSET_V`. -/
def ANEM_OFFSET_V : ℚ := 0.4

/-- Anemometer scale in volts per (m/s), constant `ANEM_SCALE_V_PER_MS`. -/
def ANEM_SCALE_V_PER_MS : ℚ := 0.2

/-- Voltage divider factor for the 5 V anemometer on the 3.3 V ADC. -/
def VOLTAGE_DIVIDER_RATIO : ℚ := 2.0

/-- Specific gas constant of dry air, local constant of
`calculateDerivedValues`. -/
def R_specific : ℚ := 287.05

/-- Rational stand-in for the Arduino floating point constant `PI`. -/
def PI : ℚ := 3.1415926535897932

/-- The sensor record filled by `readAllSensors` and completed by
`calculateDerivedValues`; mirrors `struct SensorData` of the firmware
(the string timestamp is dropped, numeric fields are rationals). -/
structure SensorData where
  timestamp_ms : ℕ
  wind_speed_ms : ℚ
  rotor_rpm : ℚ
  voltage_v : ℚ
  current_ma : ℚ
  power_w : ℚ
  temperature_c : ℚ
  humidity_pct : ℚ
  pressure_hpa : ℚ
  air_density_kgm3 : ℚ
  lambda : ℚ
  cp : ℚ
deriving DecidableEq

/-- First block of `calculateDerivedValues`: air density from the BME280
reading when available, otherwise the 1.225 kg/m3 fallback. -/
def updateAirDensity (bme280Available : Bool) (d : SensorData) : SensorData :=
  if bme280Available then
    let T_kelvin := d.temperature_c + 273.15
    let P_pascal := d.pressure_hpa * 100.0
    { d with air_density_kgm3 := P_pascal / (R_specific * T_kelvin) }
  else
    { d with air_density_kgm3 := 1.225 }

/-- Second block of `calculateDerivedValues`: tip speed ratio, computed
only when `wind_speed_ms > 0.1`, else set to 0. -/
def updateLambda (d : SensorData) : SensorData :=
  if 0.1 < d.wind_speed_ms then
    let omega := d.rotor_rpm * 2.0 * PI / 60.0
    let tipSpeed := omega * ROTOR_RADIUS_M
    { d with lambda := tipSpeed / d.wind_speed_ms }
  else
    { d with lambda := 0 }

/-- Available wind power `0.5 * rho * A * V^3` as computed inside
`calculateDerivedValues`. -/
def windPower (airDensity windSpeed : ℚ) : ℚ :=
  0.5 * airDensity * SWEPT_AREA_M2 * windSpeed ^ 3

/-- Third block of `calculateDerivedValues`: power coefficient, with the
sanity check `cp > 0.6` marking the value invalid with the -999
sentinel. -/
def updateCp (d : SensorData) : SensorData :=
  if 0.1 < d.wind_speed_ms ∧ 0 < d.power_w then
    if 0.6 < d.power_w / windPower d.air_density_kgm3 d.wind_speed_ms then
      { d with cp := -999 }
    else
      { d with cp := d.power_w / windPower d.air_density_kgm3 d.wind_speed_ms }
  else
    { d with cp := 0 }

/-- The whole of `calculateDerivedValues` from example 08: air density,
then tip speed ratio, then power coefficient, all stored back into the
current record. -/
def calculateDerivedValues (bme280Available : Bool) (d : SensorData) : SensorData :=
  updateCp (updateLambda (updateAirDensity bme280Available d))

/-- Sum of `f 0 + ... + f (n-1)`, the shape of the accumulation for
loops of the firmware. -/
def loopSum (f : ℕ → ℚ) : ℕ → ℚ
  | 0 => 0
  | n + 1 => loopSum f n + f n

/-- Anemometer voltage derived from the ten averaged ADC sub-samples in
`readAllSensors`. -/
def anemVoltage (adc : ℕ → ℚ) : ℚ :=
  let adcAvg := loopSum adc 10 / 10.0
  adcAvg / 4095.0 * 3.3 * VOLTAGE_DIVIDER_RATIO

/-- Wind speed produced by `readAllSensors`:
`max(0.0f, (voltage - ANEM_OFFSET_V) / ANEM_SCALE_V_PER_MS)`. -/
def windSpeedFromADC (adc : ℕ → ℚ) : ℚ :=
  max 0 ((anemVoltage adc - ANEM_OFFSET_V) / ANEM_SCALE_V_PER_MS)

/-- SD-card logging state of example 08: the consecutive-failure counter
`sdErrorCount` and the availability flag `sdCardAvailable`. -/
structure SDState where
  sdErrorCount : ℕ
  sdCardAvailable : Bool
deriving DecidableEq

/-- One call of `logToSDCard` from example 08.  `openOk` is the outcome
of `SD.open(DATA_FILENAME, FILE_APPEND)`: on success the record is
appended and the error counter resets; on failure the counter
increments and, once it exceeds 10, `sdCardAvailable` is cleared. -/
def logToSDCard (openOk : Bool) (s : SDState) : SDState :=
  if openOk then
    { s with sdErrorCount := 0 }
  else
    let c := s.sdErrorCount + 1
    if 10 < c then { sdErrorCount := c, sdCardAvailable := false }
    else { s with sdErrorCount := c }

/-- The guarded call site in `loop()` of example 08: `logToSDCard` runs
only while `sdCardAvailable` holds. -/
def tickLog (openOk : Bool) (s : SDState) : SDState :=
  if s.sdCardAvailable then logToSDCard openOk s else s

/-- State after `n` consecutive failing `logToSDCard` calls. -/
def logFailures (s : SDState) : ℕ → SDState
  | 0 => s
  | n + 1 => logToSDCard false (logFailures s n)

/-- The CSV header line written by `setupDataFile`. -/
def headerLine : String :=
  "timestamp,timestamp_ms,wind_speed_ms,rotor_rpm,voltage_v,current_ma,power_w,temperature_c,humidity_pct,pressure_hpa,air_density_kgm3,lambda,cp"

/-- The SD data file as seen through the SD library: absent, or a list
of written lines. -/
structure DataStore where
  file : Option (List String)
deriving DecidableEq

/-- `setupDataFile` from example 08: if `SD.exists(DATA_FILENAME)` the
call does nothing; otherwise it opens the file for writing (`openOk` is
the outcome of `SD.open`) and, when the open succeeds, writes the CSV
header and closes the file. -/
def setupDataFile (openOk : Bool) (st : DataStore) : DataStore :=
  if st.file.isSome then st
  else if openOk then { file := some [headerLine] }
  else st

/-- Number of lines of the data file equal to the CSV header. -/
def headerCount (st : DataStore) : ℕ :=
  (st.file.getD []).count headerLine

/-- Transmission-control state of `transmitAggregatedData`
(`last_transmission_time` and `transmission_retry_count`; named
`lastTxMillis` and `txRetryCount` in the nicer example). -/
structure TxState where
  lastTx : ℕ
  retry : ℕ
deriving DecidableEq

/-- One call of `transmitAggregatedData`.  `connected` is
`mqttClient.connected()`, `now` is `millis()`, `pubOk` is the outcome of
`mqttClient.publish`.  The returned Bool records whether a publish send
was attempted during this call.  On success or once the retry counter
reaches `maxRetry`, the interval timer is reset to `now` and the
counter to 0. -/
def transmitAggregatedData (maxRetry interval : ℕ) (connected pubOk : Bool)
    (now : ℕ) (s : TxState) : TxState × Bool :=
  if ¬ connected then (s, false)
  else if now - s.lastTx < interval then (s, false)
  else if pubOk then ({ lastTx := now, retry := 0 }, true)
  else if maxRetry ≤ s.retry + 1 then ({ lastTx := now, retry := 0 }, true)
  else ({ s with retry := s.retry + 1 }, true)

/-- Number of publish sends attempted over a sequence of
`transmitAggregatedData` calls while the interval timer still carries
the window marked by `L`.  Each list entry is one call:
(connected, publish outcome, millis). -/
def attemptsInWindow (maxRetry interval L : ℕ) :
    List (Bool × Bool × ℕ) → TxState → ℕ
  | [], _ => 0
  | (c, ok, now) :: rest, s =>
    (if (transmitAggregatedData maxRetry interval c ok now s).2 ∧ s.lastTx = L
     then 1 else 0) +
      attemptsInWindow maxRetry interval L rest
        (transmitAggregatedData maxRetry interval c ok now s).1

/-- Publisher-side state touched by `connectMQTT` of the MQTT examples:
the connection flag, the retry counter it resets, and whether the
retained online status message has been published. -/
structure MqttState where
  connected : Bool
  txRetryCount : ℕ
  publishedOnline : Bool
deriving DecidableEq

/-- `connectMQTT` from the MQTT transmission examples: skip when Wi-Fi
is down, otherwise one `mqttClient.connect` handshake whose outcome is
`connectOk`; on success publish the retained online status and reset
the retry counter.  The second component counts handshake attempts made
by the call. -/
def connectMQTT (wifiOk connectOk : Bool) (s : MqttState) : MqttState × ℕ :=
  if ¬ wifiOk then (s, 0)
  else if connectOk then
    ({ connected := true, txRetryCount := 0, publishedOnline := true }, 1)
  else
    ({ s with connected := false }, 1)

/-- The retry loop of `reconnectMQTT` from example 08, counting from
attempt index `i` with `fuel` loop iterations left.  Returns the final
`mqttConnected` flag, the number of `mqttClient.connect` attempts, and
the number of `delay(1000)` calls. -/
def reconnectLoop (results : ℕ → Bool) : ℕ → ℕ → Bool × ℕ × ℕ
  | 0, _ => (false, 0, 0)
  | fuel + 1, i =>
    if results i then (true, 1, 0)
    else
      let rest := reconnectLoop results fuel (i + 1)
      (rest.1, rest.2.1 + 1, rest.2.2 + 1)

/-- `reconnectMQTT` from example 08: up to 3 handshake attempts with a
`delay(1000)` after every failed one; `results i` is the outcome of the
i-th `mqttClient.connect`.  Returns (mqttConnected, attempts, delays). -/
def reconnectMQTT (wifiConnected : Bool) (results : ℕ → Bool) : Bool × ℕ × ℕ :=
  if wifiConnected then reconnectLoop results 3 0 else (false, 0, 0)

/-- `getSeverityLevel` from the MQTT transmission examples (3 =
critical, 2 = warning, 1 = info). -/
def getSeverityLevel (t : String) : ℕ :=
  if t = "OVERSPEED" ∨ t = "SENSOR_FAULT_CRITICAL" then 3
  else if t = "SD_CARD_FULL" ∨ t = "CALIBRATION_DRIFT" then 2
  else 1

/-- The only `sendAlert` call site of the firmware, in `loop()` of the
nicer MQTT example: an OVERPOWER alert when the current power exceeds
120 percent of rated power.  Returns the list of alert types emitted by
the tick. -/
def loopAlertTypes (current_power ratedPower : ℚ) : List String :=
  if ratedPower * 1.2 < current_power then ["OVERPOWER"] else []

/-- The rolling sample buffers read by `calculateRecentStats`
(`wind_speed_buffer`, `rotor_rpm_buffer`, `power_buffer`, each of 300
floats, indexed by sample slot). -/
structure Buffers where
  wind_speed_buffer : ℕ → ℚ
  rotor_rpm_buffer : ℕ → ℚ
  power_buffer : ℕ → ℚ

/-- The first statistics loop of `calculateRecentStats`: running
minimum, maximum and sum of the first `n` wind-speed slots, starting
from min = max = slot 0 and sum = 0. -/
def minMaxSum (buf : ℕ → ℚ) : ℕ → ℚ × ℚ × ℚ
  | 0 => (buf 0, buf 0, 0)
  | n + 1 =>
    let acc := minMaxSum buf n
    let v := buf n
    (if v < acc.1 then v else acc.1,
     if acc.2.1 < v then v else acc.2.1,
     acc.2.2 + v)

/-- `StatsSummary` of the MQTT transmission examples. -/
structure StatsSummary where
  sample_count : ℕ
  wind_speed_min : ℚ
  wind_speed_max : ℚ
  wind_speed_mean : ℚ
  wind_speed_std : ℚ
  rotor_rpm_min : ℚ
  rotor_rpm_max : ℚ
  rotor_rpm_mean : ℚ
  power_min : ℚ
  power_max : ℚ
  power_mean : ℚ
  energy_wh : ℚ
  cp_mean : ℚ
  lambda_mean : ℚ
  temp_mean : ℚ
  pressure_mean : ℚ
  humidity_mean : ℚ

/-- `calculateRecentStats` from the nicer MQTT example: wind-speed
min/max/mean/population-std over the 300 buffered samples, and energy
in watt-hours as the sum of the power buffer divided by 3600.  The
square root of the standard-deviation computation is the injected
library routine `sq`; fields the source leaves at their
zero-initialisation stay 0. -/
def calculateRecentStats (sq : ℚ → ℚ) (g : Buffers) : StatsSummary :=
  let sample_count := 300
  let wind := minMaxSum g.wind_speed_buffer sample_count
  let mean := wind.2.2 / sample_count
  let sumSq := loopSum
    (fun i => (g.wind_speed_buffer i - mean) * (g.wind_speed_buffer i - mean))
    sample_count
  let energy := loopSum g.power_buffer sample_count / 3600.0
  { sample_count := sample_count
    wind_speed_min := wind.1
    wind_speed_max := wind.2.1
    wind_speed_mean := mean
    wind_speed_std := sq (sumSq / sample_count)
    rotor_rpm_min := 0, rotor_rpm_max := 0, rotor_rpm_mean := 0
    power_min := 0, power_max := 0, power_mean := 0
    energy_wh := energy
    cp_mean := 0, lambda_mean := 0
    temp_mean := 0, pressure_mean := 0, humidity_mean := 0 }

/-- Statement-by-statement state-passing reading of
`calculateRecentStats`: the body only reads the global buffers (every
assignment of the source targets the local `stats`), so the global
state threaded through the call comes out untouched. -/
def calculateRecentStatsS (sq : ℚ → ℚ) (g : Buffers) : StatsSummary × Buffers :=
  (calculateRecentStats sq g, g)

/-- A calm-wind reading: wind speed 0.05 m/s, below the 0.1 m/s guard
of the tip-speed-ratio branch. -/
def readingLowWind : SensorData :=
  { timestamp_ms := 1000, wind_speed_ms := 0.05, rotor_rpm := 50,
    voltage_v := 11.9, current_ma := 120, power_w := 1.4,
    temperature_c := 28, humidity_pct := 70, pressure_hpa := 1008,
    air_density_kgm3 := 0, lambda := 0, cp := 0 }

/-- Scenario A of the specification: wind speed 0.3 m/s and rotor speed
50 rpm, with the power monitor unavailable (sentinel power). -/
def readingScenarioA : SensorData :=
  { timestamp_ms := 2000, wind_speed_ms := 0.3, rotor_rpm := 50,
    voltage_v := -999, current_ma := -999, power_w := -999,
    temperature_c := 28, humidity_pct := 70, pressure_hpa := 1008,
    air_density_kgm3 := 0, lambda := 0, cp := 0 }

/-- A reading whose power coefficient computes to 0.595, between the
Betz limit 0.593 and the code threshold 0.6: wind speed 2 m/s with the
fallback air density gives available wind power 8.82 W, and electrical
power 5.2479 W. -/
def readingAboveBetz : SensorData :=
  { timestamp_ms := 3000, wind_speed_ms := 2, rotor_rpm := 30,
    voltage_v := 12, current_ma := 437, power_w := 5.2479,
    temperature_c := 25, humidity_pct := 60, pressure_hpa := 1010,
    air_density_kgm3 := 0, lambda := 0, cp := 0 }

/-- Scenario B of the specification: wind speed 8 m/s and electrical
power 800 W, with BME280 readings (300 K, 1033.38 hPa) that make the
computed air density exactly 1.2 kg/m3. -/
def readingScenarioB : SensorData :=
  { timestamp_ms := 4000, wind_speed_ms := 8, rotor_rpm := 120,
    voltage_v := 24, current_ma := 33333, power_w := 800,
    temperature_c := 26.85, humidity_pct := 55, pressure_hpa := 1033.38,
    air_density_kgm3 := 0, lambda := 0, cp := 0 }

/-- A freshly initialised SD logging state: no consecutive failures,
card available. -/
def sdFresh : SDState := ⟨0, true⟩

/-- An idle publisher state before a connect call. -/
def mqttIdle : MqttState := ⟨false, 2, false⟩

/-! Field-preservation lemmas for the three blocks of
`calculateDerivedValues`. -/

lemma updateAirDensity_wind (b : Bool) (d : SensorData) :
    (updateAirDensity b d).wind_speed_ms = d.wind_speed_ms := by
  cases b <;> rfl

lemma updateAirDensity_power (b : Bool) (d : SensorData) :
    (updateAirDensity b d).power_w = d.power_w := by
  cases b <;> rfl

lemma updateAirDensity_rpm (b : Bool) (d : SensorData) :
    (updateAirDensity b d).rotor_rpm = d.rotor_rpm := by
  cases b <;> rfl

lemma updateLambda_wind (d : SensorData) :
    (updateLambda d).wind_speed_ms = d.wind_speed_ms := by
  unfold updateLambda; split <;> rfl

lemma updateLambda_power (d : SensorData) :
    (updateLambda d).power_w = d.power_w := by
  unfold updateLambda; split <;> rfl

lemma updateLambda_density (d : SensorData) :
    (updateLambda d).air_density_kgm3 = d.air_density_kgm3 := by
  unfold updateLambda; split <;> rfl

lemma updateLambda_lambda (d : SensorData) :
    (updateLambda d).lambda =
      if 0.1 < d.wind_speed_ms then
        d.rotor_rpm * 2.0 * PI / 60.0 * ROTOR_RADIUS_M / d.wind_speed_ms
      else 0 := by
  unfold updateLambda; split <;> rfl

lemma updateCp_density (d : SensorData) :
    (updateCp d).air_density_kgm3 = d.air_density_kgm3 := by
  unfold updateCp; split
  · split <;> rfl
  · rfl

lemma updateCp_lambda (d : SensorData) :
    (updateCp d).lambda = d.lambda := by
  unfold updateCp; split
  · split <;> rfl
  · rfl

lemma updateCp_cp (d : SensorData) :
    (updateCp d).cp =
      if 0.1 < d.wind_speed_ms ∧ 0 < d.power_w then
        if 0.6 < d.power_w / windPower d.air_density_kgm3 d.wind_speed_ms then
          -999
        else d.power_w / windPower d.air_density_kgm3 d.wind_speed_ms
      else 0 := by
  unfold updateCp; split
  · split <;> rfl
  · rfl

lemma updateAirDensity_false (d : SensorData) :
    (updateAirDensity false d).air_density_kgm3 = 1.225 := rfl

lemma updateAirDensity_true (d : SensorData) :
    (updateAirDensity true d).air_density_kgm3 =
      d.pressure_hpa * 100.0 / (R_specific * (d.temperature_c + 273.15)) := rfl

/-- C2 (amended): the low-wind cutoff of `calculateDerivedValues` is
0.1 m/s, not 0.5 m/s: whenever the sampled wind speed is at most
0.1 m/s the tip speed ratio is set to 0, regardless of rotor speed. -/
theorem lambda_zero_below_threshold (bme : Bool) (d : SensorData)
    (h : d.wind_speed_ms ≤ 0.1) :
    (calculateDerivedValues bme d).lambda = 0 := by
  unfold calculateDerivedValues
  rw [updateCp_lambda, updateLambda_lambda, updateAirDensity_wind,
    if_neg (not_lt.mpr h)]

/-- Witness for C2: at the 0.05 m/s reading the derived tip speed ratio
is 0. -/
theorem lambda_zero_below_threshold_witness :
    (calculateDerivedValues false readingLowWind).lambda = 0 :=
  lambda_zero_below_threshold false readingLowWind (by norm_num [readingLowWind])

/-- Counterexample to C2 as stated: at wind speed 0.3 m/s (below the
claimed 0.5 m/s threshold) and 50 rpm, the code computes a nonzero tip
speed ratio, 10*PI/3, because its guard is 0.1 m/s; the power
coefficient is 0 there (sentinel power is not positive). -/
theorem lambda_nonzero_scenarioA :
    (calculateDerivedValues false readingScenarioA).lambda = 10 * PI / 3 ∧
    (calculateDerivedValues false readingScenarioA).lambda ≠ 0 ∧
    (calculateDerivedValues false readingScenarioA).cp = 0 := by
  unfold calculateDerivedValues
  rw [updateCp_lambda, updateCp_cp, updateLambda_lambda, updateLambda_wind,
    updateLambda_power, updateAirDensity_wind, updateAirDensity_power,
    updateAirDensity_rpm]
  norm_num [readingScenarioA, PI, ROTOR_RADIUS_M]

/-- C10: the wind speed produced by `readAllSensors` is clamped with
`max(0.0f, ...)`: it is non-negative for every ADC input, and any
averaged reading whose voltage falls below the anemometer zero offset
yields exactly 0 m/s. -/
theorem wind_speed_nonneg_clamped (adc : ℕ → ℚ) :
    0 ≤ windSpeedFromADC adc ∧
    (anemVoltage adc < ANEM_OFFSET_V → windSpeedFromADC adc = 0) := by
  constructor
  · exact le_max_left _ _
  · intro h
    have hscale : (0:ℚ) < ANEM_SCALE_V_PER_MS := by norm_num [ANEM_SCALE_V_PER_MS]
    have hneg : (anemVoltage adc - ANEM_OFFSET_V) / ANEM_SCALE_V_PER_MS < 0 :=
      div_neg_of_neg_of_pos (sub_neg.mpr h) hscale
    exact max_eq_left hneg.le

/-- Witness for C10: an all-zero ADC trace gives voltage 0, below the
0.4 V offset, and the produced wind speed is exactly 0. -/
theorem wind_speed_nonneg_clamped_witness :
    0 ≤ windSpeedFromADC (fun _ => 0) ∧ windSpeedFromADC (fun _ => 0) = 0 :=
  ⟨(wind_speed_nonneg_clamped (fun _ => 0)).1,
   (wind_speed_nonneg_clamped (fun _ => 0)).2
     (by norm_num [anemVoltage, loopSum, ANEM_OFFSET_V, VOLTAGE_DIVIDER_RATIO])⟩

/-- C1 (amended): with a positive computed air density, every record
whose Cp field is not the -999 sentinel satisfies 0 <= Cp <= 0.6 (the
code threshold, not the 0.593 Betz limit), and any computed Cp above
0.6 is stored as the -999 sentinel, never clamped.  Computed values in
(0.593, 0.6] pass through as valid. -/
theorem cp_validity_range (bme : Bool) (d : SensorData)
    (hd : 0 < (calculateDerivedValues bme d).air_density_kgm3) :
    ((calculateDerivedValues bme d).cp ≠ -999 →
      0 ≤ (calculateDerivedValues bme d).cp ∧
        (calculateDerivedValues bme d).cp ≤ 0.6) ∧
    (0.1 < d.wind_speed_ms → 0 < d.power_w →
      0.6 < d.power_w /
          windPower (calculateDerivedValues bme d).air_density_kgm3
            d.wind_speed_ms →
      (calculateDerivedValues bme d).cp = -999) := by
  have hdd : (calculateDerivedValues bme d).air_density_kgm3 =
      (updateAirDensity bme d).air_density_kgm3 := by
    unfold calculateDerivedValues
    rw [updateCp_density, updateLambda_density]
  have hcp : (calculateDerivedValues bme d).cp =
      if 0.1 < d.wind_speed_ms ∧ 0 < d.power_w then
        if 0.6 < d.power_w /
            windPower (updateAirDensity bme d).air_density_kgm3
              d.wind_speed_ms then -999
        else d.power_w /
          windPower (updateAirDensity bme d).air_density_kgm3 d.wind_speed_ms
      else 0 := by
    unfold calculateDerivedValues
    rw [updateCp_cp, updateLambda_wind, updateLambda_power,
      updateLambda_density, updateAirDensity_wind, updateAirDensity_power]
  rw [hdd] at hd
  by_cases hc : 0.1 < d.wind_speed_ms ∧ 0 < d.power_w
  · have hwp : 0 < windPower (updateAirDensity bme d).air_density_kgm3
        d.wind_speed_ms := by
      have hw : (0:ℚ) < d.wind_speed_ms := lt_trans (by norm_num) hc.1
      unfold windPower
      exact mul_pos
        (mul_pos (mul_pos (by norm_num : (0:ℚ) < 0.5) hd)
          (by norm_num [SWEPT_AREA_M2] : (0:ℚ) < SWEPT_AREA_M2))
        (pow_pos hw 3)
    by_cases hq : 0.6 < d.power_w /
        windPower (updateAirDensity bme d).air_density_kgm3 d.wind_speed_ms
    · have hval : (calculateDerivedValues bme d).cp = -999 := by
        rw [hcp, if_pos hc, if_pos hq]
      exact ⟨fun hne => (hne hval).elim, fun _ _ _ => hval⟩
    · have hval : (calculateDerivedValues bme d).cp =
          d.power_w /
            windPower (updateAirDensity bme d).air_density_kgm3
              d.wind_speed_ms := by
        rw [hcp, if_pos hc, if_neg hq]
      have hqpos : 0 < d.power_w /
          windPower (updateAirDensity bme d).air_density_kgm3
            d.wind_speed_ms := div_pos hc.2 hwp
      refine ⟨fun _ => ⟨?_, ?_⟩, fun _ _ h3 => ?_⟩
      · rw [hval]; exact hqpos.le
      · rw [hval]; exact le_of_not_lt hq
      · rw [hdd] at h3; exact absurd h3 hq
  · have hval : (calculateDerivedValues bme d).cp = 0 := by
      rw [hcp, if_neg hc]
    refine ⟨fun _ => ?_, fun h1 h2 _ => absurd ⟨h1, h2⟩ hc⟩
    rw [hval]
    norm_num

/-- Witness for C1: at the 0.595-Cp reading the air density is the
positive 1.225 fallback, the Cp is not the sentinel, and the theorem
places it in [0, 0.6]. -/
theorem cp_validity_range_witness :
    0 ≤ (calculateDerivedValues false readingAboveBetz).cp ∧
    (calculateDerivedValues false readingAboveBetz).cp ≤ 0.6 :=
  (cp_validity_range false readingAboveBetz
    (by
      unfold calculateDerivedValues
      rw [updateCp_density, updateLambda_density, updateAirDensity_false]
      norm_num)).1
    (by
      unfold calculateDerivedValues
      rw [updateCp_cp, updateLambda_wind, updateLambda_power,
        updateLambda_density, updateAirDensity_wind, updateAirDensity_power,
        updateAirDensity_false]
      norm_num [readingAboveBetz, windPower, SWEPT_AREA_M2])

/-- Counterexample to C1 as stated: the code validates against 0.6, not
the 0.593 Betz limit, so the computed Cp 0.595 exceeds 0.593 yet is
stored as a valid (non-sentinel) value. -/
theorem cp_above_betz_passes_valid :
    (calculateDerivedValues false readingAboveBetz).cp = 0.595 ∧
    (0.593:ℚ) < (calculateDerivedValues false readingAboveBetz).cp ∧
    (calculateDerivedValues false readingAboveBetz).cp ≠ -999 := by
  unfold calculateDerivedValues
  rw [updateCp_cp, updateLambda_wind, updateLambda_power,
    updateLambda_density, updateAirDensity_wind, updateAirDensity_power,
    updateAirDensity_false]
  norm_num [readingAboveBetz, windPower, SWEPT_AREA_M2]

/-- C3 (amended): at Scenario B the derivation computes air density
1.2 kg/m3, available wind power 552.96 W and Cp 625/432 (about 1.45),
and stores the -999 sentinel since 625/432 exceeds the 0.6 threshold.
No WARNING AlertEvent exists for this fault: the only alert call site
of the firmware is the OVERPOWER check of the main loop, whose severity
level is 1, not 2. -/
theorem betz_scenario_amended :
    (calculateDerivedValues true readingScenarioB).air_density_kgm3 = 1.2 ∧
    windPower 1.2 8 = 552.96 ∧
    (800:ℚ) / windPower 1.2 8 = 625 / 432 ∧
    (0.6:ℚ) < 800 / windPower 1.2 8 ∧
    (calculateDerivedValues true readingScenarioB).cp = -999 ∧
    loopAlertTypes 800 650 = ["OVERPOWER"] ∧
    getSeverityLevel "OVERPOWER" = 1 := by
  refine ⟨?_, ?_, ?_, ?_, ?_, ?_, ?_⟩
  · unfold calculateDerivedValues
    rw [updateCp_density, updateLambda_density, updateAirDensity_true]
    norm_num [readingScenarioB, R_specific]
  · norm_num [windPower, SWEPT_AREA_M2]
  · norm_num [windPower, SWEPT_AREA_M2]
  · norm_num [windPower, SWEPT_AREA_M2]
  · unfold calculateDerivedValues
    rw [updateCp_cp, updateLambda_wind, updateLambda_power,
      updateLambda_density, updateAirDensity_wind, updateAirDensity_power,
      updateAirDensity_true]
    norm_num [readingScenarioB, R_specific, windPower, SWEPT_AREA_M2]
  · norm_num [loopAlertTypes]
  · simp [getSeverityLevel]

/-- Counterexample to C3 as stated: at Scenario B the Cp field is
flagged invalid as claimed, but no severity-2 (WARNING) AlertEvent is
emitted anywhere: the only alert the firmware loop can raise carries
severity 1 (and none at all when rated power is large). -/
theorem betz_scenario_no_warning_alert :
    (calculateDerivedValues true readingScenarioB).cp = -999 ∧
    (loopAlertTypes 800 650).map getSeverityLevel = [1] ∧
    (loopAlertTypes 800 100000).map getSeverityLevel = [] := by
  refine ⟨?_, ?_, ?_⟩
  · unfold calculateDerivedValues
    rw [updateCp_cp, updateLambda_wind, updateLambda_power,
      updateLambda_density, updateAirDensity_wind, updateAirDensity_power,
      updateAirDensity_true]
    norm_num [readingScenarioB, R_specific, windPower, SWEPT_AREA_M2]
  · norm_num [loopAlertTypes]
    simp [getSeverityLevel]
  · norm_num [loopAlertTypes]

lemma tx_lastTx_cases (mr iv : ℕ) (c ok : Bool) (now : ℕ) (s : TxState) :
    (transmitAggregatedData mr iv c ok now s).1.lastTx = s.lastTx ∨
    (transmitAggregatedData mr iv c ok now s).1.lastTx = now := by
  unfold transmitAggregatedData
  split_ifs <;> simp

lemma attemptsInWindow_of_ne (mr iv L : ℕ) (inputs : List (Bool × Bool × ℕ)) :
    ∀ s : TxState, s.lastTx ≠ L → (∀ t ∈ inputs, L < t.2.2) →
    attemptsInWindow mr iv L inputs s = 0 := by
  induction inputs with
  | nil => intro s _ _; rfl
  | cons x rest ih =>
    obtain ⟨c, ok, now⟩ := x
    intro s hs hnows
    have hnow : L < now := hnows _ (List.mem_cons_self _ _)
    have hrest : ∀ t ∈ rest, L < t.2.2 :=
      fun t ht => hnows t (List.mem_cons_of_mem _ ht)
    have hnext : (transmitAggregatedData mr iv c ok now s).1.lastTx ≠ L := by
      rcases tx_lastTx_cases mr iv c ok now s with h | h
      · rw [h]; exact hs
      · rw [h]; exact hnow.ne'
    unfold attemptsInWindow
    rw [if_neg (fun h => hs h.2), ih _ hnext hrest]

lemma attemptsInWindow_le (mr iv L : ℕ)
    (inputs : List (Bool × Bool × ℕ)) :
    ∀ s : TxState, s.lastTx = L → s.retry < mr → (∀ t ∈ inputs, L < t.2.2) →
    attemptsInWindow mr iv L inputs s ≤ mr - s.retry := by
  induction inputs with
  | nil => intro s _ _ _; exact Nat.zero_le _
  | cons x rest ih =>
    obtain ⟨c, ok, now⟩ := x
    intro s hsL hsr hnows
    obtain ⟨sl, sr⟩ := s
    dsimp only at hsL hsr
    subst hsL
    have hnow : sl < now := hnows _ (List.mem_cons_self _ _)
    have hrest : ∀ t ∈ rest, sl < t.2.2 :=
      fun t ht => hnows t (List.mem_cons_of_mem _ ht)
    unfold attemptsInWindow
    by_cases hc : (c : Prop)
    · by_cases hiv : now - sl < iv
      · have hstep : transmitAggregatedData mr iv c ok now ⟨sl, sr⟩ =
            (⟨sl, sr⟩, false) := by
          unfold transmitAggregatedData
          rw [if_neg (fun h => h hc), if_pos hiv]
        rw [hstep]
        simpa using ih ⟨sl, sr⟩ rfl hsr hrest
      · by_cases hok : (ok : Prop)
        · have hstep : transmitAggregatedData mr iv c ok now ⟨sl, sr⟩ =
              (⟨now, 0⟩, true) := by
            unfold transmitAggregatedData
            rw [if_neg (fun h => h hc), if_neg hiv, if_pos hok]
          rw [hstep]
          have hzero : attemptsInWindow mr iv sl rest ⟨now, 0⟩ = 0 :=
            attemptsInWindow_of_ne mr iv sl rest _ hnow.ne' hrest
          rw [hzero]
          rw [if_pos ⟨rfl, rfl⟩]
          show 1 + 0 ≤ mr - sr
          omega
        · by_cases hmr : mr ≤ sr + 1
          · have hstep : transmitAggregatedData mr iv c ok now ⟨sl, sr⟩ =
                (⟨now, 0⟩, true) := by
              unfold transmitAggregatedData
              rw [if_neg (fun h => h hc), if_neg hiv, if_neg hok, if_pos hmr]
            rw [hstep]
            have hzero : attemptsInWindow mr iv sl rest ⟨now, 0⟩ = 0 :=
              attemptsInWindow_of_ne mr iv sl rest _ hnow.ne' hrest
            rw [hzero]
            rw [if_pos ⟨rfl, rfl⟩]
            show 1 + 0 ≤ mr - sr
            omega
          · have hstep : transmitAggregatedData mr iv c ok now ⟨sl, sr⟩ =
                (⟨sl, sr + 1⟩, true) := by
              unfold transmitAggregatedData
              rw [if_neg (fun h => h hc), if_neg hiv, if_neg hok, if_neg hmr]
            rw [hstep]
            have hrec : attemptsInWindow mr iv sl rest ⟨sl, sr + 1⟩ ≤
                mr - (sr + 1) := ih ⟨sl, sr + 1⟩ rfl (Nat.lt_of_not_le hmr) hrest
            rw [if_pos ⟨rfl, rfl⟩]
            show 1 + attemptsInWindow mr iv sl rest ⟨sl, sr + 1⟩ ≤ mr - sr
            omega
    · have hstep : transmitAggregatedData mr iv c ok now ⟨sl, sr⟩ =
          (⟨sl, sr⟩, false) := by
        unfold transmitAggregatedData
        rw [if_pos hc]
      rw [hstep]
      simpa using ih ⟨sl, sr⟩ rfl hsr hrest

/-- C4: starting a transmission window at time `L` with a zeroed retry
counter, any sequence of `transmitAggregatedData` calls (each a single
bounded publish attempt) makes at most `maxRetry` publish sends while
the interval timer still marks `L`; and a failing attempt whose retry
counter has reached `maxRetry - 1` abandons the summary, resetting the
counter to 0 and the interval timer to the current time, so the next
window is attempted on schedule. -/
theorem publish_summary_bounded_retry (maxRetry interval L now : ℕ)
    (inputs : List (Bool × Bool × ℕ)) (s : TxState)
    (hmr : 0 < maxRetry) (hsL : s.lastTx = L) (hsr : s.retry = 0)
    (hnows : ∀ t ∈ inputs, L < t.2.2) (hnow : interval ≤ now - L) :
    attemptsInWindow maxRetry interval L inputs s ≤ maxRetry ∧
    transmitAggregatedData maxRetry interval true false now ⟨L, maxRetry - 1⟩ =
      (⟨now, 0⟩, true) := by
  constructor
  · have h := attemptsInWindow_le maxRetry interval L inputs s hsL
      (by rw [hsr]; exact hmr) hnows
    rw [hsr] at h
    simpa using h
  · unfold transmitAggregatedData
    rw [if_neg (fun h => h rfl), if_neg (Nat.not_lt.mpr hnow),
      if_neg (fun h => Bool.false_ne_true h), if_pos]
    show maxRetry ≤ maxRetry - 1 + 1
    omega

/-- Witness for C4: with the 5-minute interval and 3 retries of the
source configuration, five consecutive failing calls inside one window
attempt at most 3 sends, and the third failure resets the timer. -/
theorem publish_summary_bounded_retry_witness :
    attemptsInWindow 3 300000 0
      [(true, false, 300000), (true, false, 300001), (true, false, 300002),
       (true, false, 300003), (true, false, 300004)] ⟨0, 0⟩ ≤ 3 ∧
    transmitAggregatedData 3 300000 true false 300000 ⟨0, 2⟩ =
      (⟨300000, 0⟩, true) :=
  publish_summary_bounded_retry 3 300000 0 300000
    [(true, false, 300000), (true, false, 300001), (true, false, 300002),
     (true, false, 300003), (true, false, 300004)] ⟨0, 0⟩
    (by decide) rfl rfl (by decide) (by decide)

/-- C5 (amended): `sdCardAvailable` survives 10 consecutive write
failures and is cleared only on the 11th (the guard is a strict
`> 10` on the incremented counter); a subsequent successful write
resets the failure counter but never restores `sdCardAvailable`, and
the main loop no longer calls `logToSDCard` once the flag is cleared,
so durable logging does not resume. -/
theorem sd_degradation_behavior :
    (logFailures sdFresh 10).sdCardAvailable = true ∧
    (logFailures sdFresh 11).sdCardAvailable = false ∧
    (logToSDCard true (logFailures sdFresh 11)).sdErrorCount = 0 ∧
    (logToSDCard true (logFailures sdFresh 11)).sdCardAvailable = false ∧
    tickLog true (logFailures sdFresh 11) = logFailures sdFresh 11 := by
  decide

/-- Counterexample to C5 as stated: after exactly 10 consecutive write
failures the log is NOT yet degraded (the flag clears only on the
11th), and a successful write after degradation does NOT clear the
degraded state. -/
theorem sd_degradation_counterexample :
    (logFailures sdFresh 10).sdCardAvailable = true ∧
    (logToSDCard true (logFailures sdFresh 11)).sdCardAvailable = false := by
  decide

/-- C6: running `setupDataFile` twice against an initially absent data
file leaves exactly one CSV header line, as long as at least one of the
two opens succeeds: the `SD.exists` check before opening makes the
header write idempotent. -/
theorem setup_data_file_idempotent (b1 b2 : Bool) (h : (b1 || b2) = true) :
    headerCount (setupDataFile b2 (setupDataFile b1 ⟨none⟩)) = 1 := by
  cases b1 <;> cases b2 <;> simp_all [setupDataFile, headerCount]

/-- Witness for C6: two successful header-write passes over the same
empty store leave one header. -/
theorem setup_data_file_idempotent_witness :
    headerCount (setupDataFile true (setupDataFile true ⟨none⟩)) = 1 :=
  setup_data_file_idempotent true true rfl

lemma loopSum_const (c : ℚ) (n : ℕ) : loopSum (fun _ => c) n = n * c := by
  induction n with
  | zero => simp [loopSum]
  | succ m ih =>
    rw [loopSum, ih]
    push_cast
    ring

/-- C7: the integrated energy of a window summary is the sum of the 300
buffered power samples divided by 3600 (rectangular integration at 1 Hz
normalised to watt-hours); for a constant 100 W window this is
25/3 Wh, about 8.33. -/
theorem energy_rectangular_integration (sq : ℚ → ℚ) (g : Buffers)
    (w r : ℕ → ℚ) :
    (calculateRecentStats sq g).energy_wh =
      loopSum g.power_buffer 300 / 3600 ∧
    (calculateRecentStats sq ⟨w, r, fun _ => 100⟩).energy_wh = 25 / 3 := by
  constructor
  · unfold calculateRecentStats
    norm_num
  · unfold calculateRecentStats
    show loopSum (fun _ => (100:ℚ)) 300 / (3600.0:ℚ) = 25 / 3
    rw [loopSum_const]
    norm_num

/-- C9: computing the window summary leaves the sample buffers
unchanged (the source assigns only to the local stats record), so a
second summary over the untouched state equals the first: the window is
sliding, never cleared by the computation itself. -/
theorem close_window_frame (sq : ℚ → ℚ) (g : Buffers) :
    (calculateRecentStatsS sq g).2 = g ∧
    (calculateRecentStatsS sq (calculateRecentStatsS sq g).2).1 =
      (calculateRecentStatsS sq g).1 :=
  ⟨rfl, rfl⟩

lemma reconnectLoop_le (r : ℕ → Bool) (fuel : ℕ) : ∀ i,
    (reconnectLoop r fuel i).2.1 ≤ fuel ∧
    (reconnectLoop r fuel i).2.2 ≤ fuel := by
  induction fuel with
  | zero => intro i; simp [reconnectLoop]
  | succ n ih =>
    intro i
    unfold reconnectLoop
    by_cases h : (r i : Prop)
    · rw [if_pos h]
      exact ⟨Nat.succ_le_succ (Nat.zero_le n), Nat.zero_le _⟩
    · rw [if_neg h]
      have hr := ih (i + 1)
      exact ⟨Nat.succ_le_succ hr.1, Nat.succ_le_succ hr.2⟩

/-- C8 (amended): `connectMQTT` of the MQTT transmission examples makes
at most one handshake attempt per call, on success publishes the
retained online status and resets the retry counter, and on failure
leaves the publisher disconnected; `reconnectMQTT` of example 08,
however, loops up to 3 handshake attempts per call with a one-second
`delay` after every failure. -/
theorem connect_single_attempt (w c : Bool) (s : MqttState) (r : ℕ → Bool) :
    (connectMQTT w c s).2 ≤ 1 ∧
    (w = true → c = true → (connectMQTT w c s).1 = ⟨true, 0, true⟩) ∧
    (w = true → c = false → (connectMQTT w c s).1.connected = false) ∧
    (reconnectMQTT w r).2.1 ≤ 3 ∧ (reconnectMQTT w r).2.2 ≤ 3 := by
  refine ⟨?_, ?_, ?_, ?_, ?_⟩
  · cases w <;> cases c <;> simp [connectMQTT]
  · intro hw hc; subst hw; subst hc; rfl
  · intro hw hc; subst hw; subst hc; rfl
  · cases w
    · simp [reconnectMQTT]
    · simpa [reconnectMQTT] using (reconnectLoop_le r 3 0).1
  · cases w
    · simp [reconnectMQTT]
    · simpa [reconnectMQTT] using (reconnectLoop_le r 3 0).2

/-- Witness for C8: a successful connect call over Wi-Fi makes one
attempt and ends connected with the online status published and the
retry counter reset. -/
theorem connect_single_attempt_witness :
    (connectMQTT true true mqttIdle).2 ≤ 1 ∧
    (connectMQTT true true mqttIdle).1 = ⟨true, 0, true⟩ :=
  ⟨(connect_single_attempt true true mqttIdle (fun _ => false)).1,
   (connect_single_attempt true true mqttIdle (fun _ => false)).2.1 rfl rfl⟩

/-- Counterexample to C8 as stated: against an unreachable broker,
`reconnectMQTT` of example 08 performs 3 handshake attempts and 3
one-second delays within a single call, not a single non-blocking
attempt. -/
theorem reconnect_retries_and_sleeps :
    reconnectMQTT true (fun _ => false) = (false, 3, 3) := by
  decide

end WindDAQ
